import Mathlib

/-!
Verification of the ark-signaling WebRTC signaling server.

The definitions below are a shallow embedding of the production signaling
server (`server/index.js`, the entry point named by `ecosystem.config.cjs`;
the dev-mode plugin in `vite.config.ts` repeats the same logic minus the IP
filter and with a shorter policy-error text).  Pure functions of the source
become Lean functions; the shared mutable maps (`clients`, `rooms`,
`rateLimitTrackers`, `pendingEthAuth`) become insertion-ordered association
lists, matching the iteration order of JavaScript `Map`/`Set`; machine
arithmetic of the CIDR matcher is carried out on `Nat` with explicit
`% 2^32`; the `viem` signature check and `Math.random` are parameters
(an oracle function and the base-36 digit expansion of the drawn number).
-/

namespace ArkSignaling

/-! ## JavaScript-semantics helpers -/

/-- Truthiness of a nullable JS string: `null`/`undefined` and `""` are falsy. -/
def jsTruthy (s : Option String) : Bool :=
  match s with
  | some t => t ≠ ""
  | none => false

/-- ASCII lower-casing, the behaviour of `String.prototype.toLowerCase` on the
hex addresses handled here. -/
def lowerChar (c : Char) : Char :=
  if 65 ≤ c.toNat ∧ c.toNat ≤ 90 then Char.ofNat (c.toNat + 32) else c

def toLowerStr (s : String) : String :=
  String.mk (s.data.map lowerChar)

/-- A single-quote character, used to assemble the policy-error text without a
quote literal. -/
def sq : String :=
  String.mk [Char.ofNat 39]

/-- Digit characters of JavaScript `Number.prototype.toString(36)`:
0-9 then a-z. -/
def base36Char (d : Nat) : Char :=
  if d < 10 then Char.ofNat (48 + d) else Char.ofNat (87 + d)

def isBase36Char (c : Char) : Bool :=
  (48 ≤ c.toNat && c.toNat ≤ 57) || (97 ≤ c.toNat && c.toNat ≤ 122)

def isHexChar (c : Char) : Bool :=
  (48 ≤ c.toNat && c.toNat ≤ 57) || (97 ≤ c.toNat && c.toNat ≤ 102)
    || (65 ≤ c.toNat && c.toNat ≤ 70)

/-- Characters of `r.toString(36)` for a JS number `r` in `[0,1)`, given the
base-36 digit expansion of `r` (empty for `r = 0`, which prints as `"0"`;
otherwise `"0."` followed by the digits). -/
def jsRandomBase36String (digits : List Nat) : List Char :=
  if digits.isEmpty then [Char.ofNat 48]
  else Char.ofNat 48 :: Char.ofNat 46 :: digits.map base36Char

/-- `parseInt` on the decimal strings appearing in IP patterns; `none` models
`NaN`. -/
def jsParseInt (s : String) : Option Nat :=
  s.toNat?

/-! ## Configuration snapshot (`config/signaling.config.json` shape) -/

structure IPFilter where
  pattern : String
  type : String
  deriving DecidableEq

structure RoomConfig where
  id : String
  routingMode : String
  allowedMessageTypes : Option (List String)
  deriving DecidableEq

structure RateLimitRule where
  enabled : Bool
  maxMessages : Nat
  windowMs : Nat
  messageTypes : Option (List String)
  deriving DecidableEq

structure AuthConfig where
  enabled : Bool
  method : Option String
  allowAnonymous : Bool
  anonymousPfx : Option String
  handshakeMessage : Option String
  handshakeExpiry : Option Nat
  deriving DecidableEq

structure ConnectionLimits where
  maxConnectionsPerIP : Nat
  maxTotalConnections : Nat
  maxConnectionsPerRoom : Nat
  deriving DecidableEq

structure Config where
  wsPath : String
  rooms : List RoomConfig
  ipFilters : List IPFilter
  connectionLimits : ConnectionLimits
  rateLimitRules : List RateLimitRule
  auth : AuthConfig
  deriving DecidableEq

/-! ## IP matcher (`isIPAllowed`, `matchIP`, `ipToNumber`) -/

/-- Strip an IPv4-mapped IPv6 prefix, as in `ipToNumber`. -/
def stripMapped (ip : String) : String :=
  if ip.startsWith "::ffff:" then ip.drop 7 else ip

/-- `ipToNumber`: dotted-quad to a 32-bit value.  The source folds with
`(acc << 8) + parseInt(part)`; modulo `2^32` this is the fold below.  A string
without exactly four dot-separated parts yields `0`; a part that is not a
number makes the JS value `NaN`, which behaves as `0` in the only consumer
(the bitwise comparison in `matchIP`). -/
def ipToNumber (ip0 : String) : Nat :=
  let ip := stripMapped ip0
  let parts := (ip.splitOn ".").map jsParseInt
  if parts.length ≠ 4 then 0
  else if parts.any Option.isNone then 0
  else (parts.foldl (fun acc p => acc * 256 + p.getD 0) 0) % 2 ^ 32

/-- The 32-bit mask `~(2 ** (32 - bits) - 1)` of `matchIP`, as an unsigned
value.  `none` models `parseInt` returning `NaN` (mask is all ones, as is the
JS result for prefixes longer than 32). -/
def cidrMask (bits : Option Nat) : Nat :=
  match bits with
  | none => 2 ^ 32 - 1
  | some b => if b ≤ 32 then 2 ^ 32 - 2 ^ (32 - b) else 2 ^ 32 - 1

/-- `matchIP`: literal equality, else CIDR containment. -/
def matchIP (ip pattern : String) : Bool :=
  if pattern == ip then true
  else
    let parts := pattern.splitOn "/"
    if parts.length ≥ 2 then
      let network := parts.headD ""
      let mask := cidrMask (jsParseInt (parts.getD 1 ""))
      (ipToNumber ip).land mask == (ipToNumber network).land mask
    else false

/-- `isIPAllowed`: with no filters allow; with any whitelist entry require a
whitelist match; then deny on any blacklist match. -/
def isIPAllowed (filters : List IPFilter) (ip : String) : Bool :=
  if filters.isEmpty then true
  else
    let whitelists := filters.filter (fun f => f.type == "whitelist")
    let blacklists := filters.filter (fun f => f.type == "blacklist")
    if whitelists.length > 0 && !(whitelists.any (fun f => matchIP ip f.pattern)) then
      false
    else
      !(blacklists.any (fun f => matchIP ip f.pattern))

/-! ## Anonymous ids and the admission-time auth prescreen -/

/-- Resolution `config.auth?.anonymousPrefix || 'anon_'` (the source field is
named `anonymousPrefix`). -/
def resolveAnonPfx (auth : AuthConfig) : String :=
  match auth.anonymousPfx with
  | some p => if p == "" then "anon_" else p
  | none => "anon_"

/-- `generateAnonymousId`: the configured (or default) tag followed by
`Math.random().toString(36).substring(2, 10)`; `digits` is the base-36
expansion of the drawn random number. -/
def generateAnonymousId (auth : AuthConfig) (digits : List Nat) : String :=
  resolveAnonPfx auth ++ String.mk (((jsRandomBase36String digits).drop 2).take 8)

inductive AuthResult where
  | invalid (reason : String)
  | valid (userId : Option String) (pendingEthereumAuth : Bool)
  deriving DecidableEq

/-- `validateAuth` at upgrade time.  `tokenParam` is the `token` query
parameter (`none` when absent). -/
def validateAuth (auth : AuthConfig) (digits : List Nat) (tokenParam : Option String) :
    AuthResult :=
  if !auth.enabled then .valid (some (generateAnonymousId auth digits)) false
  else if auth.allowAnonymous then .valid (some (generateAnonymousId auth digits)) false
  else if auth.method == some "token" then
    match tokenParam with
    | some t =>
        if t == "" then .invalid "No token provided"
        else .valid (some ("user_" ++ t.take 8)) false
    | none => .invalid "No token provided"
  else if auth.method == some "ethereum-handshake" then .valid none true
  else .valid (some (generateAnonymousId auth digits)) false

/-! ## Admission pipeline (`server.on('upgrade')`) -/

structure LimitCheck where
  allowed : Bool
  reason : Option String
  deriving DecidableEq

/-- `checkConnectionLimits`; `roomSize` is `rooms.get(roomId)?.size` for the
optional room argument (the upgrade path passes no room). -/
def checkConnectionLimits (limits : ConnectionLimits) (totalClients ipCount : Nat)
    (roomId : Option String) (roomSize : Option Nat) : LimitCheck :=
  if totalClients ≥ limits.maxTotalConnections then
    ⟨false, some "Server at capacity"⟩
  else if ipCount ≥ limits.maxConnectionsPerIP then
    ⟨false, some "Too many connections from this IP"⟩
  else
    match roomId, roomSize with
    | some _, some sz =>
        if sz ≥ limits.maxConnectionsPerRoom then ⟨false, some "Room is full"⟩
        else ⟨true, none⟩
    | _, _ => ⟨true, none⟩

inductive UpgradeDecision where
  | destroyed
  | reject403
  | reject503
  | reject401
  | accept (result : AuthResult)
  deriving DecidableEq

/-- The upgrade handler: path gate, IP filter (403), capacity (503), auth
prescreen (401), then `handleUpgrade` completes the WebSocket handshake. -/
def handleUpgrade (config : Config) (totalClients ipCount : Nat)
    (pathname ip : String) (digits : List Nat) (tokenParam : Option String) :
    UpgradeDecision :=
  if pathname ≠ config.wsPath then .destroyed
  else if !(isIPAllowed config.ipFilters ip) then .reject403
  else if !(checkConnectionLimits config.connectionLimits totalClients ipCount
      none none).allowed then .reject503
  else
    match validateAuth config.auth digits tokenParam with
    | .invalid _ => .reject401
    | r => .accept r

/-! ## Ethereum handshake engine -/

structure PendingEthAuth where
  token : String
  message : String
  expiry : Nat
  deriving DecidableEq

/-- `generateHandshakeToken`: `Date.now()` and the hex of 16 random bytes. -/
def generateHandshakeToken (now : Nat) (nonceHex : String) : String :=
  toString now ++ ":" ++ nonceHex

def createHandshakeMessage (token : String) (customMessage : Option String) : String :=
  (match customMessage with
   | some m => if m == "" then "Sign this to authenticate with the signaling server" else m
   | none => "Sign this to authenticate with the signaling server")
  ++ "\n\nToken: " ++ token

/-- `sendEthereumHandshakeChallenge`: the pending entry stored for the
connection; the same fields (plus tags) form the `auth-challenge` frame. -/
def ethereumHandshakeChallenge (auth : AuthConfig) (now : Nat) (nonceHex : String) :
    PendingEthAuth :=
  let token := generateHandshakeToken now nonceHex
  { token
    message := createHandshakeMessage token auth.handshakeMessage
    expiry := now + (match auth.handshakeExpiry with
      | some e => if e == 0 then 300 else e
      | none => 300) * 1000 }

/-- Format gate `^0x[a-fA-F0-9]{40}$` (stated over the character list). -/
def isHexAddr40 (s : String) : Bool :=
  s.length == 42 && s.data.take 2 == [Char.ofNat 48, Char.ofNat 120]
    && (s.data.drop 2).all isHexChar

/-- Format gate `^0x[a-fA-F0-9]{130}$` (stated over the character list). -/
def isHexSig130 (s : String) : Bool :=
  s.length == 132 && s.data.take 2 == [Char.ofNat 48, Char.ofNat 120]
    && (s.data.drop 2).all isHexChar

/-- Outcome of the `viem` `verifyMessage` call: a boolean verdict, or a thrown
exception. -/
inductive VerifyOutcome where
  | ok (valid : Bool)
  | err
  deriving DecidableEq

structure VerifyResult where
  valid : Bool
  reason : Option String
  userId : Option String
  walletAddress : Option String
  deriving DecidableEq

/-- The `{signature, address}` fields of an `auth-response`; `none` models an
absent field, `some ""` an empty (falsy) one. -/
structure AuthResponseMsg where
  signature : Option String
  address : Option String
  deriving DecidableEq

/-- `verifyEthereumHandshake`: consumes `pending` (second component of the
result is the connection's pending entry afterwards).  `verify a m s` is the
oracle for `verifyMessage({address := a, message := m, signature := s})`. -/
def verifyEthereumHandshake (verify : String → String → String → VerifyOutcome)
    (now : Nat) (pending : Option PendingEthAuth) (response : AuthResponseMsg) :
    VerifyResult × Option PendingEthAuth :=
  match pending with
  | none => (⟨false, some "No pending handshake challenge", none, none⟩, none)
  | some p =>
    if p.expiry < now then
      (⟨false, some "Handshake challenge expired", none, none⟩, none)
    else if !(jsTruthy response.signature) || !(jsTruthy response.address) then
      (⟨false, some "Missing signature or address", none, none⟩, some p)
    else
      let address := response.address.getD ""
      let signature := response.signature.getD ""
      if !(isHexAddr40 address) then
        (⟨false, some "Invalid Ethereum address format", none, none⟩, some p)
      else if !(isHexSig130 signature) then
        (⟨false, some "Invalid signature format", none, none⟩, some p)
      else
        match verify address p.message signature with
        | .ok true =>
            (⟨true, none, some (toLowerStr address), some (toLowerStr address)⟩, none)
        | .ok false =>
            (⟨false, some "Signature verification failed", none, none⟩, none)
        | .err =>
            (⟨false, some "Signature verification error", none, none⟩, none)

/-! ## Rate limiter (`checkRateLimit`) -/

/-- Count of recorded timestamps at or after `now - windowMs`. -/
def windowCount (timestamps : List Nat) (now windowMs : Nat) : Nat :=
  (timestamps.filter (fun ts => decide (now - windowMs ≤ ts))).length

/-- One rule's verdict inside the loop of `checkRateLimit`: `true` when the
rule is enabled, applies to the message type, and its window is full. -/
def ruleBlocks (rule : RateLimitRule) (timestamps : List Nat) (now : Nat)
    (messageType : String) : Bool :=
  rule.enabled
    && (match rule.messageTypes with
        | some l => l.isEmpty || l.contains messageType
        | none => true)
    && decide (rule.maxMessages ≤ windowCount timestamps now rule.windowMs)

/-- `checkRateLimit`: prune entries 60 s or older, test every rule, and on
acceptance record `now`.  Returns the verdict and the connection's new
timestamp list (unchanged when no rules are configured, where the source
returns before touching the tracker). -/
def checkRateLimit (rules : List RateLimitRule) (tracker : List Nat) (now : Nat)
    (messageType : String) : Bool × List Nat :=
  if rules.isEmpty then (true, tracker)
  else
    let pruned := tracker.filter (fun ts => decide (now - ts < 60000))
    if rules.any (fun r => ruleBlocks r pruned now messageType) then (false, pruned)
    else (true, pruned ++ [now])

/-! ## Shared state: connection registry and rooms

JavaScript `Map` and `Set` iterate in insertion order and `set`/`add` keep an
existing key's position; the association lists below reproduce that. -/

structure ClientData where
  id : String
  ip : String
  roomId : Option String
  userId : Option String
  walletAddress : Option String
  authenticated : Bool
  connectedAt : Nat
  messageCount : Nat
  lastMessageAt : Option Nat
  deriving DecidableEq

def alookup {β : Type} (l : List (Nat × β)) (k : Nat) : Option β :=
  (l.find? (fun p => p.1 == k)).map Prod.snd

def aupdate {β : Type} (l : List (Nat × β)) (k : Nat) (f : β → β) : List (Nat × β) :=
  l.map (fun p => if p.1 == k then (p.1, f p.2) else p)

/-- `Map.set` / keyed insert preserving an existing key's position. -/
def mapSet {β : Type} (l : List (Nat × β)) (k : Nat) (v : β) : List (Nat × β) :=
  if l.any (fun p => p.1 == k) then l.map (fun p => if p.1 == k then (k, v) else p)
  else l ++ [(k, v)]

def rlookup (l : List (String × List Nat)) (k : String) : Option (List Nat) :=
  (l.find? (fun p => p.1 == k)).map Prod.snd

def rmapSet (l : List (String × List Nat)) (k : String) (v : List Nat) :
    List (String × List Nat) :=
  if l.any (fun p => p.1 == k) then l.map (fun p => if p.1 == k then (k, v) else p)
  else l ++ [(k, v)]

/-- The server's shared mutable registries: `clients` (connection handle to
record) and `rooms` (room id to member handles). -/
structure ServerState where
  clients : List (Nat × ClientData)
  rooms : List (String × List Nat)
  deriving DecidableEq

/-! ## Room manager (`joinRoom`, `leaveRoom`) -/

def leaveRoom (st : ServerState) (n : Nat) : ServerState :=
  match alookup st.clients n with
  | none => st
  | some cd =>
    match cd.roomId with
    | none => st
    | some rid =>
      let rooms1 :=
        match rlookup st.rooms rid with
        | some members =>
          let members1 := members.filter (fun m => m != n)
          if members1.isEmpty then st.rooms.filter (fun p => p.1 != rid)
          else rmapSet st.rooms rid members1
        | none => st.rooms
      { clients := aupdate st.clients n (fun c => { c with roomId := none })
        rooms := rooms1 }

def joinRoom (config : Config) (st : ServerState) (n : Nat) (roomId0 : String) :
    ServerState :=
  match alookup st.clients n with
  | none => st
  | some cd0 =>
    let st1 := if cd0.roomId.isSome then leaveRoom st n else st
    let roomId :=
      match config.rooms.find? (fun r => r.id == roomId0) with
      | some _ => roomId0
      | none =>
        match config.rooms with
        | [] => roomId0
        | r :: _ => r.id
    let members := (rlookup st1.rooms roomId).getD []
    let members1 := if members.contains n then members else members ++ [n]
    { clients := aupdate st1.clients n (fun c => { c with roomId := some roomId })
      rooms := rmapSet st1.rooms roomId members1 }

/-! ## Router (`routeMessage`) -/

/-- The fields of a parsed inbound frame that the router inspects. -/
structure ParsedMessage where
  type : Option String
  roomId : Option String
  targetId : Option String
  deriving DecidableEq

/-- Frames the router writes to sockets: a verbatim forwarded client frame, or
a `{type:'error', error:…}` frame. -/
inductive OutFrame where
  | raw (s : String)
  | errorFrame (error : String)
  deriving DecidableEq

/-- The exact policy-error text
`Message type '<type>' not allowed in this room`. -/
def msgTypeNotAllowed (t : String) : String :=
  "Message type " ++ sq ++ t ++ sq ++ " not allowed in this room"

/-- Result of one `routeMessage` call: the updated registries, the updated
rate-limit trackers, and the ordered socket writes `(handle, frame)`. -/
structure RouteResult where
  state : ServerState
  trackers : List (Nat × List Nat)
  sends : List (Nat × OutFrame)
  deriving DecidableEq

/-- `parsedMessage.type || 'custom'`. -/
def messageTypeOf (parsed : ParsedMessage) : String :=
  match parsed.type with
  | some t => if t == "" then "custom" else t
  | none => "custom"

/-- `routeMessage`.  `parseResult` is `none` when `JSON.parse` throws (the
source then substitutes `{type:'custom', data:raw}`); `openSock n` models
`readyState === OPEN` of handle `n`'s socket. -/
def routeMessage (config : Config) (st : ServerState) (trackers : List (Nat × List Nat))
    (openSock : Nat → Bool) (n : Nat) (raw : String) (parseResult : Option ParsedMessage)
    (now : Nat) : RouteResult :=
  match alookup st.clients n with
  | none => ⟨st, trackers, []⟩
  | some clientData =>
    let parsed := parseResult.getD ⟨some "custom", none, none⟩
    let messageType := messageTypeOf parsed
    let checked := checkRateLimit config.rateLimitRules ((alookup trackers n).getD [])
      now messageType
    let trackers1 :=
      if config.rateLimitRules.isEmpty then trackers else mapSet trackers n checked.2
    if !checked.1 then
      ⟨st, trackers1, [(n, .errorFrame "Rate limit exceeded")]⟩
    else if messageType == "join" && jsTruthy parsed.roomId then
      ⟨joinRoom config st n (parsed.roomId.getD ""), trackers1, []⟩
    else if messageType == "leave" then
      ⟨leaveRoom st n, trackers1, []⟩
    else
      let roomConfig := config.rooms.find? (fun r =>
        match clientData.roomId with
        | some rid => r.id == rid
        | none => false)
      let blocked :=
        match roomConfig with
        | some rc =>
          match rc.allowedMessageTypes with
          | some l => !(l.contains messageType)
          | none => false
        | none => false
      if blocked then
        ⟨st, trackers1, [(n, .errorFrame (msgTypeNotAllowed messageType))]⟩
      else
        let routingMode :=
          match roomConfig with
          | some rc => if rc.routingMode == "" then "broadcast" else rc.routingMode
          | none => "broadcast"
        let sends :=
          if routingMode == "unicast" && jsTruthy parsed.targetId then
            match st.clients.find? (fun p =>
                p.2.id == parsed.targetId.getD "" && openSock p.1) with
            | some p => [(p.1, OutFrame.raw raw)]
            | none => []
          else
            let targets :=
              match clientData.roomId with
              | some rid => (rlookup st.rooms rid).getD []
              | none => st.clients.map Prod.fst
            targets.filterMap (fun m =>
              if m != n && openSock m then some (m, OutFrame.raw raw) else none)
        ⟨{ st with clients := aupdate st.clients n (fun c =>
              { c with messageCount := c.messageCount + 1, lastMessageAt := some now }) },
          trackers1, sends⟩

/-! ## Connection driver (`wss.on('connection')`, `ws.on('close')`) -/

/-- The client record built on `connection`; `digits2` feeds the
`generateAnonymousId()` fallback for a missing or empty user id. -/
def initClientData (result : AuthResult) (auth : AuthConfig) (digits2 : List Nat)
    (ip : String) (now : Nat) : ClientData :=
  let isPendingEthAuth :=
    match result with
    | .valid _ p => p
    | .invalid _ => false
  let userId : Option String :=
    if isPendingEthAuth then none
    else
      match result with
      | .valid (some u) _ =>
          if u == "" then some (generateAnonymousId auth digits2) else some u
      | _ => some (generateAnonymousId auth digits2)
  { id := if isPendingEthAuth then "pending_" ++ toString now
      else userId.getD "" ++ "_" ++ toString now
    ip
    roomId := none
    userId
    walletAddress := none
    authenticated := !isPendingEthAuth
    connectedAt := now
    messageCount := 0
    lastMessageAt := none }

/-- State the connection handler touches beyond `ServerState`. -/
structure ConnState where
  server : ServerState
  trackers : List (Nat × List Nat)
  pending : List (Nat × PendingEthAuth)
  ipConnections : List (String × Nat)
  deriving DecidableEq

def ipMapSet (l : List (String × Nat)) (k : String) (v : Nat) : List (String × Nat) :=
  if l.any (fun p => p.1 == k) then l.map (fun p => if p.1 == k then (k, v) else p)
  else l ++ [(k, v)]

def ipLookup (l : List (String × Nat)) (k : String) : Option Nat :=
  (l.find? (fun p => p.1 == k)).map Prod.snd

/-- `wss.on('connection')` for a fresh handle `n`: register the record, bump
the IP counter, and either issue the handshake challenge (pending) or
auto-join the default room.  Returns the new state and the handle's pending
entry, if any. -/
def onConnection (config : Config) (cs : ConnState) (n : Nat) (result : AuthResult)
    (digits2 : List Nat) (ip : String) (now : Nat) (nonceHex : String) : ConnState :=
  let clientData := initClientData result config.auth digits2 ip now
  let isPendingEthAuth := !clientData.authenticated
  let server1 := { cs.server with clients := mapSet cs.server.clients n clientData }
  let cs1 := { cs with
    server := server1
    ipConnections := ipMapSet cs.ipConnections ip ((ipLookup cs.ipConnections ip).getD 0 + 1) }
  if isPendingEthAuth then
    { cs1 with pending := mapSet cs1.pending n (ethereumHandshakeChallenge config.auth now nonceHex) }
  else
    match config.rooms with
    | [] => cs1
    | r :: _ => { cs1 with server := joinRoom config cs1.server n r.id }

/-- `ws.on('close')`: leave the room, decrement (or drop) the IP counter, and
erase the registry, tracker and pending entries for the handle. -/
def onClose (cs : ConnState) (n : Nat) : ConnState :=
  let cs1 :=
    match alookup cs.server.clients n with
    | none => cs
    | some clientData =>
      let server1 := leaveRoom cs.server n
      let ipCount := (ipLookup cs.ipConnections clientData.ip).getD 1
      let ipConns1 :=
        if ipCount ≤ 1 then
          cs.ipConnections.filter (fun (p : String × Nat) => p.1 != clientData.ip)
        else ipMapSet cs.ipConnections clientData.ip (ipCount - 1)
      { cs with server := server1, ipConnections := ipConns1 }
  { cs1 with
    server := { cs1.server with clients := cs1.server.clients.filter (fun p => p.1 != n) }
    trackers := cs1.trackers.filter (fun p => p.1 != n)
    pending := cs1.pending.filter (fun p => p.1 != n) }

/-! ## Rate-limit run: a connection's frames folded through `checkRateLimit`

Used to state the sliding-window property: the frames all carry message type
`ty`, arrive at the given times, and the second component collects the arrival
times of the accepted frames. -/

def rlStep (rules : List RateLimitRule) (ty : String) :
    List Nat × List Nat → Nat → List Nat × List Nat :=
  fun s now =>
    let checked := checkRateLimit rules s.1 now ty
    (checked.2, if checked.1 then s.2 ++ [now] else s.2)

def rlRun (rules : List RateLimitRule) (ty : String) (arrivals : List Nat) :
    List Nat × List Nat :=
  arrivals.foldl (rlStep rules ty) ([], [])

def acceptedTimes (rules : List RateLimitRule) (ty : String) (arrivals : List Nat) :
    List Nat :=
  (rlRun rules ty arrivals).2

/-- Number of accepted arrivals falling in the half-open sliding interval
`(t, t + w]`. -/
def countAccIn (acc : List Nat) (t w : Nat) : Nat :=
  (acc.filter (fun a => decide (t < a) && decide (a ≤ t + w))).length

/-! ## Association-list lemmas -/

theorem alookup_aupdate_self {β : Type} (l : List (Nat × β)) (k : Nat) (f : β → β) :
    alookup (aupdate l k f) k = (alookup l k).map f := by
  induction l with
  | nil => rfl
  | cons p rest ih =>
    by_cases hp : p.1 = k
    · simp [alookup, aupdate, List.find?, hp]
    · have hb : (p.1 == k) = false := by simpa using hp
      simpa [alookup, aupdate, List.find?, hb] using ih

theorem rlookup_rmapSet_self (l : List (String × List Nat)) (k : String)
    (v : List Nat) : rlookup (rmapSet l k v) k = some v := by
  unfold rmapSet
  by_cases hany : l.any (fun p => p.1 == k)
  · simp only [hany, if_true]
    induction l with
    | nil => simp at hany
    | cons p rest ih =>
      by_cases hp : p.1 = k
      · simp [rlookup, List.find?, hp]
      · have hb : (p.1 == k) = false := by simpa using hp
        have hrest : rest.any (fun p => p.1 == k) = true := by
          simpa [List.any_cons, hb] using hany
        simpa [rlookup, List.find?, hb] using ih hrest
  · simp only [hany, if_false]
    have hall : ∀ p ∈ l, (p.1 == k) = false := by
      intro p hp
      by_contra hc
      exact hany (List.any_eq_true.mpr ⟨p, hp, by simpa using hc⟩)
    induction l with
    | nil => simp [rlookup, List.find?]
    | cons p rest ih =>
      have hb := hall p (by simp)
      have : ∀ q ∈ rest, (q.1 == k) = false := fun q hq => hall q (by simp [hq])
      simpa [rlookup, List.find?, hb] using ih (by simpa [List.any_cons, hb] using hany) this

/-! ## Claim C1 -/

theorem isIPAllowed_false_of_denied (filters : List IPFilter) (ip : String)
    (hdeny :
      ((∃ f ∈ filters, f.type = "whitelist") ∧
        ∀ f ∈ filters, f.type = "whitelist" → matchIP ip f.pattern = false) ∨
      (∃ f ∈ filters, f.type = "blacklist" ∧ matchIP ip f.pattern = true)) :
    isIPAllowed filters ip = false := by
  have hne : filters.isEmpty = false := by
    rcases hdeny with ⟨⟨f, hf, _⟩, _⟩ | ⟨f, hf, _⟩ <;>
      (cases filters with
       | nil => simp at hf
       | cons a l => rfl)
  unfold isIPAllowed
  rw [hne]
  simp only [Bool.false_eq_true, if_false]
  rcases hdeny with ⟨⟨f, hf, hfw⟩, hnone⟩ | ⟨f, hf, hfb, hfm⟩
  · have hw : (filters.filter (fun f => f.type == "whitelist")).length > 0 := by
      have : f ∈ filters.filter (fun f => f.type == "whitelist") :=
        List.mem_filter.mpr ⟨hf, by simp [hfw]⟩
      exact List.length_pos_of_mem this
    have hany :
        (filters.filter (fun f => f.type == "whitelist")).any
          (fun f => matchIP ip f.pattern) = false := by
      rw [List.any_eq_false]
      intro g hg
      have := List.mem_filter.mp hg
      have hgw : g.type = "whitelist" := by simpa using this.2
      simp [hnone g this.1 hgw]
    simp [hw, hany]
  · by_cases hcase :
      ((filters.filter (fun f => f.type == "whitelist")).length > 0 &&
        !((filters.filter (fun f => f.type == "whitelist")).any
          (fun f => matchIP ip f.pattern))) = true
    · rw [if_pos hcase]
    · rw [if_neg (by simpa using hcase)]
      have : (filters.filter (fun f => f.type == "blacklist")).any
          (fun f => matchIP ip f.pattern) = true :=
        List.any_eq_true.mpr ⟨f, List.mem_filter.mpr ⟨hf, by simp [hfb]⟩, hfm⟩
      simp [this]

/-- C1: for every HTTP upgrade request at the WebSocket path whose remote
address is denied by the IP matcher (a whitelist entry exists and no
whitelist pattern matches, or some blacklist pattern matches), the admission
pipeline answers `403 Forbidden` and never reaches the WebSocket handshake
(the `.accept` outcome is the only one that calls `wss.handleUpgrade`). -/
theorem c1_ip_denied_gives_403 (config : Config) (totalClients ipCount : Nat)
    (ip : String) (digits : List Nat) (tokenParam : Option String)
    (hdeny :
      ((∃ f ∈ config.ipFilters, f.type = "whitelist") ∧
        ∀ f ∈ config.ipFilters, f.type = "whitelist" → matchIP ip f.pattern = false) ∨
      (∃ f ∈ config.ipFilters, f.type = "blacklist" ∧ matchIP ip f.pattern = true)) :
    handleUpgrade config totalClients ipCount config.wsPath ip digits tokenParam =
      .reject403 := by
  have hallow := isIPAllowed_false_of_denied config.ipFilters ip hdeny
  unfold handleUpgrade
  simp [hallow]

def cfgBlk : Config :=
  { wsPath := "/ws"
    rooms := []
    ipFilters := [⟨"1.2.3.4", "blacklist"⟩]
    connectionLimits := ⟨10, 1000, 100⟩
    rateLimitRules := []
    auth := ⟨false, none, true, some "anon_", none, none⟩ }

/-- Witness for C1 at a concrete denied address. -/
theorem c1_ip_denied_gives_403_witness :
    (∃ f ∈ cfgBlk.ipFilters, f.type = "blacklist" ∧ matchIP "1.2.3.4" f.pattern = true) ∧
    handleUpgrade cfgBlk 0 0 cfgBlk.wsPath "1.2.3.4" [] none = .reject403 :=
  ⟨by decide, c1_ip_denied_gives_403 cfgBlk 0 0 "1.2.3.4" [] none (Or.inr (by decide))⟩

/-! ## Claim C2 -/

def c2auth : AuthConfig := ⟨false, none, true, some "anon_", none, none⟩

/-- C2 counterexample: `Math.random()` can return exactly `0.5`, whose base-36
rendering is `"0.i"` (digit expansion `[18]`), so `substring(2, 10)` is `"i"`:
the admitted anonymous connection gets user id `"anon_i"`, whose part after
the configured tag is one character long — not eight — and `i` is not a
hexadecimal digit. -/
theorem c2_counterexample :
    validateAuth c2auth [18] none = .valid (some ("anon_" ++ "i")) false ∧
    "i".length ≠ 8 ∧ "i".data.all isHexChar = false := by
  refine ⟨?_, by decide, by decide⟩
  rfl

theorem base36Char_valid (d : Nat) (hd : d < 36) : isBase36Char (base36Char d) = true := by
  interval_cases d <;> decide

theorem anonSuffix_eq (digits : List Nat) :
    ((jsRandomBase36String digits).drop 2).take 8 = (digits.map base36Char).take 8 := by
  cases digits <;> simp [jsRandomBase36String]

/-- C2 amended: a connection admitted with `auth.enabled = false` or
`allowAnonymous = true` gets the anonymous user id made of the configured
`anonymousPrefix` (default `anon_`) followed by at most eight base-36
characters (digits and lowercase letters, possibly fewer than eight), is
marked authenticated immediately, and no pending-handshake entry is created
for it. -/
theorem c2_anonymous_admission (config : Config) (digits digits2 : List Nat)
    (tokenParam : Option String) (ip : String) (now : Nat)
    (h : config.auth.enabled = false ∨ config.auth.allowAnonymous = true)
    (hd : ∀ d ∈ digits, d < 36) :
    ∃ suffix : List Char,
      validateAuth config.auth digits tokenParam =
        .valid (some (resolveAnonPfx config.auth ++ String.mk suffix)) false ∧
      suffix.length ≤ 8 ∧
      (∀ c ∈ suffix, isBase36Char c = true) ∧
      (initClientData (validateAuth config.auth digits tokenParam) config.auth digits2
        ip now).authenticated = true ∧
      ∀ (cs : ConnState) (n : Nat) (nonceHex : String),
        (onConnection config cs n (validateAuth config.auth digits tokenParam) digits2
          ip now nonceHex).pending = cs.pending := by
  have hval : validateAuth config.auth digits tokenParam =
      .valid (some (generateAnonymousId config.auth digits)) false := by
    unfold validateAuth
    rcases h with h | h <;> simp [h]
  refine ⟨(digits.map base36Char).take 8, ?_, ?_, ?_, ?_, ?_⟩
  · rw [hval]
    unfold generateAnonymousId
    rw [anonSuffix_eq]
  · simp
  · intro c hc
    have hc2 := List.mem_of_mem_take hc
    obtain ⟨d, hdmem, rfl⟩ := List.mem_map.mp hc2
    exact base36Char_valid d (hd d hdmem)
  · rw [hval]
    rfl
  · intro cs n nonceHex
    rw [hval]
    unfold onConnection
    simp only [initClientData]
    cases config.rooms <;> simp

/-- Witness for C2 amended at the concrete random draw `0.5`. -/
theorem c2_anonymous_admission_witness :
    (cfgBlk.auth.enabled = false ∨ cfgBlk.auth.allowAnonymous = true) ∧
    ∃ suffix : List Char,
      validateAuth cfgBlk.auth [18] none =
        .valid (some (resolveAnonPfx cfgBlk.auth ++ String.mk suffix)) false ∧
      suffix.length ≤ 8 ∧
      (∀ c ∈ suffix, isBase36Char c = true) ∧
      (initClientData (validateAuth cfgBlk.auth [18] none) cfgBlk.auth []
        "1.2.3.4" 7).authenticated = true ∧
      ∀ (cs : ConnState) (n : Nat) (nonceHex : String),
        (onConnection cfgBlk cs n (validateAuth cfgBlk.auth [18] none) []
          "1.2.3.4" 7 nonceHex).pending = cs.pending :=
  ⟨Or.inl rfl,
    c2_anonymous_admission cfgBlk [18] [] none "1.2.3.4" 7 (Or.inl rfl) (by decide)⟩

/-! ## Claim C3 -/

def pend0 : PendingEthAuth := ⟨"1:ab", "msgA", 1000⟩

def verifyYes : String → String → String → VerifyOutcome := fun _ _ _ => .ok true

def addrW : String := "0xaaaaaaaaaaaaaaaaaaaaaaaaaaaaaaaaaaaaaaaa"

def sigW : String :=
  "0xaaaaaaaaaaaaaaaaaaaaaaaaaaaaaaaaaaaaaaaaaaaaaaaaaaaaaaaaaaaaaaaaaaaaaaaaaaaaaaaaaaaaaaaaaaaaaaaaaaaaaaaaaaaaaaaaaaaaaaaaaaaaaaaaaa"

/-- C3 counterexample: an `auth-response` with no `signature` field fails
(`Missing signature or address`) yet leaves the pending challenge in place,
and a later, well-formed attempt is evaluated against the very same challenge
and can succeed — so a verification failure does not always consume the
challenge. -/
theorem c3_counterexample :
    (verifyEthereumHandshake verifyYes 500 (some pend0) ⟨none, some "0xabc"⟩).1.valid
        = false ∧
    (verifyEthereumHandshake verifyYes 500 (some pend0) ⟨none, some "0xabc"⟩).2
        = some pend0 ∧
    (verifyEthereumHandshake verifyYes 600 (some pend0) ⟨some sigW, some addrW⟩).1.valid
        = true := by
  refine ⟨rfl, rfl, ?_⟩
  decide

theorem pending_filter_lookup (l : List (Nat × PendingEthAuth)) (n : Nat) :
    alookup (l.filter (fun p => p.1 != n)) n = none := by
  unfold alookup
  rw [List.find?_eq_none.mpr]
  · rfl
  · intro p hp
    have := (List.mem_filter.mp hp).2
    simp only [bne_iff_ne, ne_eq] at this
    simp [this]

/-- C3 amended: the pending challenge is consumed exactly by the attempts
that check expiry or reach cryptographic verification — expired challenges
and well-formed responses (verification success, failure, or error) remove
the entry, while responses rejected for a missing or malformed signature or
address leave it in place; the entry is removed regardless when the
connection closes. -/
theorem c3_challenge_consumption (verify : String → String → String → VerifyOutcome)
    (now : Nat) (p : PendingEthAuth) (response : AuthResponseMsg) :
    ((verifyEthereumHandshake verify now (some p) response).2 = none ↔
      (p.expiry < now ∨
        (jsTruthy response.signature = true ∧ jsTruthy response.address = true ∧
          isHexAddr40 (response.address.getD "") = true ∧
          isHexSig130 (response.signature.getD "") = true))) ∧
    ∀ (cs : ConnState) (n : Nat), alookup (onClose cs n).pending n = none := by
  constructor
  · unfold verifyEthereumHandshake
    by_cases h1 : p.expiry < now
    · simp [h1]
    · simp only [h1, if_false]
      by_cases h2 : jsTruthy response.signature = true
      · by_cases h3 : jsTruthy response.address = true
        · simp only [h2, h3, Bool.not_true, Bool.or_self, Bool.false_or, if_false]
          by_cases h4 : isHexAddr40 (response.address.getD "") = true
          · by_cases h5 : isHexSig130 (response.signature.getD "") = true
            · simp only [h4, h5, Bool.not_true, if_false]
              cases hv : verify (response.address.getD "") p.message
                  (response.signature.getD "") with
              | ok b => cases b <;> simp [h1, h2, h3, h4, h5]
              | err => simp [h1, h2, h3, h4, h5]
            · simp [h4, h5, h1, h2, h3]
          · simp [h4, h1, h2, h3]
        · simp [h2, h3, h1]
      · simp [h2, h1]
  · intro cs n
    unfold onClose
    exact pending_filter_lookup _ n

/-- Witness for C3 amended: a well-formed response consumes the entry. -/
theorem c3_challenge_consumption_witness :
    (verifyEthereumHandshake verifyYes 0 (some pend0) ⟨some sigW, some addrW⟩).2 = none :=
  (c3_challenge_consumption verifyYes 0 pend0 ⟨some sigW, some addrW⟩).1.mpr
    (Or.inr ⟨by decide, by decide, by decide, by decide⟩)

/-! ## Claim C6 -/

/-- C6: on an `auth-response` against a pending challenge, a current time
strictly past the expiry fails with `Handshake challenge expired` and drops
the pending entry; at or before the expiry (for example `expiry - 1` ms)
verification proceeds, and a response whose well-formed signature the
verifier accepts succeeds. -/
theorem c6_expiry_boundary (verify : String → String → String → VerifyOutcome)
    (now : Nat) (p : PendingEthAuth) (response : AuthResponseMsg) :
    (p.expiry < now →
      verifyEthereumHandshake verify now (some p) response =
        (⟨false, some "Handshake challenge expired", none, none⟩, none)) ∧
    (now ≤ p.expiry →
      ∀ addr sig, response.address = some addr → response.signature = some sig →
        isHexAddr40 addr = true → isHexSig130 sig = true →
        verify addr p.message sig = .ok true →
        verifyEthereumHandshake verify now (some p) response =
          (⟨true, none, some (toLowerStr addr), some (toLowerStr addr)⟩, none)) := by
  constructor
  · intro h
    unfold verifyEthereumHandshake
    simp [h]
  · intro h addr sig haddr hsig ha hs hv
    have hlt : ¬ p.expiry < now := not_lt.mpr h
    have haddr_ne : addr ≠ "" := by
      intro he
      rw [he] at ha
      exact absurd ha (by decide)
    have hsig_ne : sig ≠ "" := by
      intro he
      rw [he] at hs
      exact absurd hs (by decide)
    unfold verifyEthereumHandshake
    simp [hlt, haddr, hsig, jsTruthy, haddr_ne, hsig_ne, ha, hs, hv]

/-- Witness for C6 at `now = expiry - 1` and at `now = expiry + 1`. -/
theorem c6_expiry_boundary_witness :
    verifyEthereumHandshake verifyYes 999 (some pend0) ⟨some sigW, some addrW⟩ =
      (⟨true, none, some (toLowerStr addrW), some (toLowerStr addrW)⟩, none) ∧
    verifyEthereumHandshake verifyYes 1001 (some pend0) ⟨some sigW, some addrW⟩ =
      (⟨false, some "Handshake challenge expired", none, none⟩, none) :=
  ⟨(c6_expiry_boundary verifyYes 999 pend0 ⟨some sigW, some addrW⟩).2 (by decide)
      addrW sigW rfl rfl (by decide) (by decide) rfl,
    (c6_expiry_boundary verifyYes 1001 pend0 ⟨some sigW, some addrW⟩).1 (by decide)⟩

/-! ## Router characterization

A shared lemma evaluating `routeMessage` past the rate limiter, the control
types and the policy gate, down to the fan-out stage. -/

theorem routeMessage_forward (config : Config) (st : ServerState)
    (trackers : List (Nat × List Nat)) (openSock : Nat → Bool) (n : Nat) (raw : String)
    (parsed : ParsedMessage) (now : Nat) (cd : ClientData)
    (hcd : alookup st.clients n = some cd)
    (hrl : (checkRateLimit config.rateLimitRules ((alookup trackers n).getD []) now
      (messageTypeOf parsed)).1 = true)
    (hjoin : (messageTypeOf parsed == "join" && jsTruthy parsed.roomId) = false)
    (hleave : (messageTypeOf parsed == "leave") = false)
    (hblocked : (match config.rooms.find? (fun r =>
        match cd.roomId with
        | some rid => r.id == rid
        | none => false) with
      | some rc =>
        match rc.allowedMessageTypes with
        | some l => !(l.contains (messageTypeOf parsed))
        | none => false
      | none => false) = false) :
    routeMessage config st trackers openSock n raw (some parsed) now =
      ⟨{ st with clients := aupdate st.clients n (fun c =>
            { c with messageCount := c.messageCount + 1, lastMessageAt := some now }) },
        (if config.rateLimitRules.isEmpty then trackers
          else mapSet trackers n (checkRateLimit config.rateLimitRules
            ((alookup trackers n).getD []) now (messageTypeOf parsed)).2),
        (if (match config.rooms.find? (fun r =>
              match cd.roomId with
              | some rid => r.id == rid
              | none => false) with
            | some rc => if rc.routingMode == "" then "broadcast" else rc.routingMode
            | none => "broadcast") == "unicast" && jsTruthy parsed.targetId then
          match st.clients.find? (fun p =>
              p.2.id == parsed.targetId.getD "" && openSock p.1) with
          | some p => [(p.1, OutFrame.raw raw)]
          | none => []
        else
          (match cd.roomId with
            | some rid => (rlookup st.rooms rid).getD []
            | none => st.clients.map Prod.fst).filterMap (fun m =>
            if m != n && openSock m then some (m, OutFrame.raw raw) else none))⟩ := by
  unfold routeMessage
  rw [hcd]
  simp only [Option.getD_some, hrl, Bool.not_true, Bool.false_eq_true, if_false, hjoin,
    hleave, hblocked]

/-! ## Claim C4 -/

def cfg4 : Config :=
  { wsPath := "/ws"
    rooms := [⟨"r", "unicast", none⟩]
    ipFilters := []
    connectionLimits := ⟨10, 1000, 100⟩
    rateLimitRules := []
    auth := ⟨false, none, true, some "anon_", none, none⟩ }

def cdFix (i : String) (r : Option String) : ClientData :=
  { id := i, ip := "ip", roomId := r, userId := some i, walletAddress := none,
    authenticated := true, connectedAt := 0, messageCount := 0, lastMessageAt := none }

def st4 : ServerState :=
  { clients := [(0, cdFix "A" (some "r")), (1, cdFix "B" (some "r"))]
    rooms := [("r", [0, 1])] }

/-- C4 counterexample: in a unicast room, a frame without `targetId` is not
dropped — the router falls through to the broadcast branch and the other open
room member (handle 1) receives the raw frame. -/
theorem c4_counterexample :
    (routeMessage cfg4 st4 [] (fun _ => true) 0 "m"
      (some ⟨some "custom", none, none⟩) 0).sends = [(1, OutFrame.raw "m")] := by
  rfl

/-- C4 amended: in a unicast room, a frame with a truthy `targetId` reaches at
most one connection — the first registry entry whose id equals `targetId` and
whose socket is open (none if no such connection) — while a frame without a
truthy `targetId` falls through to broadcast delivery to every other open
member of the sender's room, rather than being dropped. -/
theorem c4_unicast_routing (config : Config) (st : ServerState)
    (trackers : List (Nat × List Nat)) (openSock : Nat → Bool) (n : Nat) (raw : String)
    (parsed : ParsedMessage) (now : Nat) (cd : ClientData) (rid : String)
    (rc : RoomConfig)
    (hcd : alookup st.clients n = some cd)
    (hrid : cd.roomId = some rid)
    (hrc : config.rooms.find? (fun r => r.id == rid) = some rc)
    (hmode : rc.routingMode = "unicast")
    (hallowed : (match rc.allowedMessageTypes with
      | some l => !(l.contains (messageTypeOf parsed))
      | none => false) = false)
    (hrl : (checkRateLimit config.rateLimitRules ((alookup trackers n).getD []) now
      (messageTypeOf parsed)).1 = true)
    (hjoin : (messageTypeOf parsed == "join" && jsTruthy parsed.roomId) = false)
    (hleave : (messageTypeOf parsed == "leave") = false) :
    (jsTruthy parsed.targetId = true →
      (routeMessage config st trackers openSock n raw (some parsed) now).sends.length ≤ 1 ∧
      ∀ q ∈ (routeMessage config st trackers openSock n raw (some parsed) now).sends,
        q.2 = OutFrame.raw raw ∧ openSock q.1 = true ∧
        ∃ cdq, (q.1, cdq) ∈ st.clients ∧ cdq.id = parsed.targetId.getD "") ∧
    (jsTruthy parsed.targetId = false →
      (routeMessage config st trackers openSock n raw (some parsed) now).sends =
        ((rlookup st.rooms rid).getD []).filterMap (fun m =>
          if m != n && openSock m then some (m, OutFrame.raw raw) else none)) := by
  have hfwd := routeMessage_forward config st trackers openSock n raw parsed now cd hcd
    hrl hjoin hleave (by rw [hrid, hrc]; exact hallowed)
  have hsends : (routeMessage config st trackers openSock n raw (some parsed) now).sends =
      (if (match config.rooms.find? (fun r =>
            match cd.roomId with
            | some rid => r.id == rid
            | none => false) with
          | some rc => if rc.routingMode == "" then "broadcast" else rc.routingMode
          | none => "broadcast") == "unicast" && jsTruthy parsed.targetId then
        match st.clients.find? (fun p =>
            p.2.id == parsed.targetId.getD "" && openSock p.1) with
        | some p => [(p.1, OutFrame.raw raw)]
        | none => []
      else
        (match cd.roomId with
          | some rid => (rlookup st.rooms rid).getD []
          | none => st.clients.map Prod.fst).filterMap (fun m =>
          if m != n && openSock m then some (m, OutFrame.raw raw) else none)) := by
    rw [hfwd]
  simp only [hrid, hrc, hmode] at hsends
  have hmode2 : ((if (("unicast" : String) == "") = true then "broadcast" else "unicast") ==
      "unicast") = true := by decide
  rw [hmode2, Bool.true_and] at hsends
  constructor
  · intro htgt
    rw [htgt, if_pos rfl] at hsends
    rw [hsends]
    cases hfind : st.clients.find? (fun p =>
        p.2.id == parsed.targetId.getD "" && openSock p.1) with
    | none => simp
    | some p =>
      have hpred := List.find?_some hfind
      have hmem := List.mem_of_find?_eq_some hfind
      simp only [Bool.and_eq_true, beq_iff_eq] at hpred
      refine ⟨by simp, ?_⟩
      intro q hq
      simp only [List.mem_singleton] at hq
      subst hq
      exact ⟨rfl, hpred.2, ⟨p.2, hmem, hpred.1⟩⟩
  · intro htgt
    rw [htgt] at hsends
    simp only [Bool.false_eq_true, if_false] at hsends
    rw [hsends]

/-- Witness for C4 amended: unicast to client `B` delivers to handle 1 only. -/
theorem c4_unicast_routing_witness :
    (routeMessage cfg4 st4 [] (fun _ => true) 0 "m"
      (some ⟨some "custom", none, some "B"⟩) 0).sends.length ≤ 1 := by
  have h := c4_unicast_routing cfg4 st4 [] (fun _ => true) 0 "m"
    ⟨some "custom", none, some "B"⟩ 0 (cdFix "A" (some "r")) "r" ⟨"r", "unicast", none⟩
    rfl rfl rfl rfl rfl rfl rfl rfl
  exact (h.1 (by decide)).1

/-! ## Claim C5 -/

/-- C5 counterexample: in a unicast room, a sender that names its own client
id as `targetId` receives the frame back — the router's unicast branch has no
sender exclusion, so the sender (handle 0) is the sole recipient. -/
theorem c5_counterexample :
    (routeMessage cfg4 st4 [] (fun _ => true) 0 "m"
      (some ⟨some "custom", none, some "A"⟩) 0).sends = [(0, OutFrame.raw "m")] := by
  rfl

/-- C5 amended: the sender never receives a forwarded copy from the broadcast
fan-out, and a forwarded raw frame reaches the sender only through the
unicast branch when `parsed.targetId` is truthy and some registry entry under
the sender's handle carries exactly that client id (self-targeted unicast). -/
theorem c5_sender_exclusion (config : Config) (st : ServerState)
    (trackers : List (Nat × List Nat)) (openSock : Nat → Bool) (n : Nat) (raw : String)
    (parseResult : Option ParsedMessage) (now : Nat) :
    ∀ q ∈ (routeMessage config st trackers openSock n raw parseResult now).sends,
      q.1 = n → q.2 = OutFrame.raw raw →
        jsTruthy (parseResult.getD ⟨some "custom", none, none⟩).targetId = true ∧
        ∃ cdq, (n, cdq) ∈ st.clients ∧
          cdq.id = (parseResult.getD ⟨some "custom", none, none⟩).targetId.getD "" := by
  intro q hq hqn hqraw
  unfold routeMessage at hq
  cases hcd : alookup st.clients n with
  | none => rw [hcd] at hq; simp at hq
  | some cd =>
    rw [hcd] at hq
    simp only at hq
    set parsed := parseResult.getD ⟨some "custom", none, none⟩ with hparsed
    by_cases hrl : (checkRateLimit config.rateLimitRules ((alookup trackers n).getD [])
        now (messageTypeOf parsed)).1 = true
    · simp only [hrl, Bool.not_true, Bool.false_eq_true, if_false] at hq
      by_cases hjoin : (messageTypeOf parsed == "join" && jsTruthy parsed.roomId) = true
      · simp only [hjoin, if_true] at hq
        simp at hq
      · simp only [Bool.not_eq_true] at hjoin
        simp only [hjoin, Bool.false_eq_true, if_false] at hq
        by_cases hleave : (messageTypeOf parsed == "leave") = true
        · simp only [hleave, if_true] at hq
          simp at hq
        · simp only [Bool.not_eq_true] at hleave
          simp only [hleave, Bool.false_eq_true, if_false] at hq
          by_cases hblocked : (match config.rooms.find? (fun r =>
              match cd.roomId with
              | some rid => r.id == rid
              | none => false) with
            | some rc =>
              match rc.allowedMessageTypes with
              | some l => !(l.contains (messageTypeOf parsed))
              | none => false
            | none => false) = true
          · simp only [hblocked, if_true] at hq
            simp only [List.mem_singleton] at hq
            rw [hq] at hqraw
            simp at hqraw
          · simp only [Bool.not_eq_true] at hblocked
            simp only [hblocked, Bool.false_eq_true, if_false] at hq
            by_cases huni : ((match config.rooms.find? (fun r =>
                match cd.roomId with
                | some rid => r.id == rid
                | none => false) with
              | some rc => if rc.routingMode == "" then "broadcast" else rc.routingMode
              | none => "broadcast") == "unicast" && jsTruthy parsed.targetId) = true
            · simp only [huni, if_true] at hq
              simp only [Bool.and_eq_true] at huni
              have htgt := huni.2
              cases hfind : st.clients.find? (fun p =>
                  p.2.id == parsed.targetId.getD "" && openSock p.1) with
              | none => rw [hfind] at hq; simp at hq
              | some p =>
                rw [hfind] at hq
                simp only [List.mem_singleton] at hq
                have hpred := List.find?_some hfind
                have hmem := List.mem_of_find?_eq_some hfind
                simp only [Bool.and_eq_true, beq_iff_eq] at hpred
                subst hq
                simp only at hqn
                refine ⟨htgt, ⟨p.2, ?_, hpred.1⟩⟩
                rw [← hqn]
                simpa using hmem
            · simp only [Bool.not_eq_true] at huni
              simp only [huni, Bool.false_eq_true, if_false] at hq
              obtain ⟨m, hm, hcond⟩ := List.mem_filterMap.mp hq
              by_cases hc : (m != n && openSock m) = true
              · rw [if_pos hc] at hcond
                have : q.1 = m := by
                  cases hcond
                  rfl
                simp only [Bool.and_eq_true] at hc
                have hmn := hc.1
                rw [bne_iff_ne] at hmn
                exact absurd (this ▸ hqn) hmn
              · rw [if_neg hc] at hcond
                cases hcond
    · simp only [Bool.not_eq_true] at hrl
      simp only [hrl] at hq
      simp only [Bool.not_false, if_true, List.mem_singleton] at hq
      rw [hq] at hqraw
      simp at hqraw

/-- Witness for C5 amended at the self-targeted unicast scenario. -/
theorem c5_sender_exclusion_witness :
    jsTruthy ((some (ParsedMessage.mk (some "custom") none (some "A"))).getD
      ⟨some "custom", none, none⟩).targetId = true ∧
    ∃ cdq, ((0 : Nat), cdq) ∈ st4.clients ∧
      cdq.id = ((some (ParsedMessage.mk (some "custom") none (some "A"))).getD
        ⟨some "custom", none, none⟩).targetId.getD "" :=
  c5_sender_exclusion cfg4 st4 [] (fun _ => true) 0 "m"
    (some ⟨some "custom", none, some "A"⟩) 0 (0, OutFrame.raw "m") (by decide) rfl rfl

/-! ## Claim C8 -/

def cfg8 : Config :=
  { wsPath := "/ws"
    rooms := [⟨"r", "broadcast", some ["custom"]⟩]
    ipFilters := []
    connectionLimits := ⟨10, 1000, 100⟩
    rateLimitRules := []
    auth := ⟨false, none, true, some "anon_", none, none⟩ }

/-- C8 counterexample: `leave` is not in room `r`'s `allowedMessageTypes`
(`["custom"]`), yet a `{"type":"leave"}` frame from an authenticated member
is handled as the leave control type before the policy gate: the server sends
no error reply at all (and no recipient receives anything), contradicting the
universally quantified claim. -/
theorem c8_counterexample :
    ("leave" ∈ (["custom"] : List String) → False) ∧
    (routeMessage cfg8 st4 [] (fun _ => true) 0 "lv"
      (some ⟨some "leave", none, none⟩) 5).sends = [] := by
  exact ⟨by decide, rfl⟩

/-- C8 amended: an authenticated connection's non-control frame (not a
`join` with a room id and not a `leave`) that passes the rate limiter and
whose message type is missing from its room's `allowedMessageTypes` list is
answered to the sender with exactly
`{type:'error', error:"Message type '<type>' not allowed in this room"}`,
and the registries are left unchanged — the frame reaches no recipient. -/
theorem c8_disallowed_type (config : Config) (st : ServerState)
    (trackers : List (Nat × List Nat)) (openSock : Nat → Bool) (n : Nat) (raw : String)
    (parsed : ParsedMessage) (now : Nat) (cd : ClientData) (rid : String)
    (rc : RoomConfig) (allowed : List String)
    (hcd : alookup st.clients n = some cd)
    (hrid : cd.roomId = some rid)
    (hrc : config.rooms.find? (fun r => r.id == rid) = some rc)
    (hal : rc.allowedMessageTypes = some allowed)
    (hnot : allowed.contains (messageTypeOf parsed) = false)
    (hrl : (checkRateLimit config.rateLimitRules ((alookup trackers n).getD []) now
      (messageTypeOf parsed)).1 = true)
    (hjoin : (messageTypeOf parsed == "join" && jsTruthy parsed.roomId) = false)
    (hleave : (messageTypeOf parsed == "leave") = false) :
    (routeMessage config st trackers openSock n raw (some parsed) now).sends =
      [(n, OutFrame.errorFrame (msgTypeNotAllowed (messageTypeOf parsed)))] ∧
    (routeMessage config st trackers openSock n raw (some parsed) now).state = st := by
  have hblocked : (match config.rooms.find? (fun r =>
      match cd.roomId with
      | some rid => r.id == rid
      | none => false) with
    | some rc =>
      match rc.allowedMessageTypes with
      | some l => !(l.contains (messageTypeOf parsed))
      | none => false
    | none => false) = true := by
    rw [hrid, hrc]
    simp only [hal, hnot]
    rfl
  unfold routeMessage
  rw [hcd]
  simp only [Option.getD_some, hrl, Bool.not_true, Bool.false_eq_true, if_false, hjoin,
    hleave, hblocked, if_true]
  exact ⟨trivial, trivial⟩

/-- Witness for C8 amended: an `offer` in a room allowing only `custom`. -/
theorem c8_disallowed_type_witness :
    (routeMessage cfg8 st4 [] (fun _ => true) 0 "m"
      (some ⟨some "offer", none, none⟩) 0).sends =
      [(0, OutFrame.errorFrame (msgTypeNotAllowed "offer"))] := by
  have h := c8_disallowed_type cfg8 st4 [] (fun _ => true) 0 "m"
    ⟨some "offer", none, none⟩ 0 (cdFix "A" (some "r")) "r"
    ⟨"r", "broadcast", some ["custom"]⟩ ["custom"] rfl rfl rfl rfl (by decide) rfl
    (by decide) (by decide)
  exact h.1

/-! ## Claim C9 -/

/-- C9: a frame routed for a sender with no room falls into the broadcast
branch over the whole client registry: the recipients are exactly the other
open connections in `clients` (its `keys()` iteration), with no
authentication test — in particular every open, still-unauthenticated
(pending-handshake) connection other than the sender receives the raw
frame. -/
theorem c9_roomless_broadcast_reaches_pending (config : Config) (st : ServerState)
    (trackers : List (Nat × List Nat)) (openSock : Nat → Bool) (n : Nat) (raw : String)
    (parsed : ParsedMessage) (now : Nat) (cd : ClientData)
    (hcd : alookup st.clients n = some cd)
    (hnoroom : cd.roomId = none)
    (hrl : (checkRateLimit config.rateLimitRules ((alookup trackers n).getD []) now
      (messageTypeOf parsed)).1 = true)
    (hjoin : (messageTypeOf parsed == "join" && jsTruthy parsed.roomId) = false)
    (hleave : (messageTypeOf parsed == "leave") = false) :
    (routeMessage config st trackers openSock n raw (some parsed) now).sends =
      (st.clients.map Prod.fst).filterMap (fun m =>
        if m != n && openSock m then some (m, OutFrame.raw raw) else none) ∧
    ∀ q ∈ st.clients, q.2.authenticated = false → q.1 ≠ n → openSock q.1 = true →
      (q.1, OutFrame.raw raw) ∈
        (routeMessage config st trackers openSock n raw (some parsed) now).sends := by
  have hnone : config.rooms.find? (fun (r : RoomConfig) => false) = none :=
    List.find?_eq_none.mpr (by intro a _; simp)
  have hblocked : (match config.rooms.find? (fun r =>
      match cd.roomId with
      | some rid => r.id == rid
      | none => false) with
    | some rc =>
      match rc.allowedMessageTypes with
      | some l => !(l.contains (messageTypeOf parsed))
      | none => false
    | none => false) = false := by
    simp only [hnoroom]
    rw [hnone]
  have hfwd := routeMessage_forward config st trackers openSock n raw parsed now cd hcd
    hrl hjoin hleave hblocked
  have hsends : (routeMessage config st trackers openSock n raw (some parsed) now).sends =
      (st.clients.map Prod.fst).filterMap (fun m =>
        if m != n && openSock m then some (m, OutFrame.raw raw) else none) := by
    rw [hfwd]
    simp only [hnoroom]
    rw [hnone]
    have hbu : (("broadcast" : String) == "unicast") = false := by decide
    simp only [hbu, Bool.false_and, Bool.false_eq_true, if_false]
  refine ⟨hsends, ?_⟩
  intro q hq hauth hqn hopen
  rw [hsends]
  refine List.mem_filterMap.mpr ⟨q.1, List.mem_map.mpr ⟨q, hq, rfl⟩, ?_⟩
  rw [if_pos]
  simp only [Bool.and_eq_true, bne_iff_ne, ne_eq]
  exact ⟨hqn, hopen⟩

def stPend : ServerState :=
  { clients := [(0, cdFix "A" none),
      (1, { cdFix "pending_1" none with authenticated := false, userId := none })]
    rooms := [] }

/-- Witness for C9: with no room set, the open unauthenticated connection
(handle 1) receives the sender's raw frame. -/
theorem c9_roomless_broadcast_reaches_pending_witness :
    ((1 : Nat), OutFrame.raw "m") ∈
      (routeMessage cfg4 stPend [] (fun _ => true) 0 "m"
        (some ⟨some "custom", none, none⟩) 0).sends := by
  have h := c9_roomless_broadcast_reaches_pending cfg4 stPend [] (fun _ => true) 0 "m"
    ⟨some "custom", none, none⟩ 0 (cdFix "A" none) rfl rfl rfl rfl rfl
  exact h.2 (1, { cdFix "pending_1" none with authenticated := false, userId := none })
    (by simp [stPend]) rfl (by decide) rfl

/-! ## Claim C10 -/

theorem leaveRoom_clients_lookup (st : ServerState) (n : Nat) (cd : ClientData)
    (hcd : alookup st.clients n = some cd) :
    alookup (leaveRoom st n).clients n = some cd ∨
    alookup (leaveRoom st n).clients n = some { cd with roomId := none } := by
  unfold leaveRoom
  rw [hcd]
  dsimp only
  cases hr : cd.roomId with
  | none => exact Or.inl hcd
  | some rid =>
    right
    dsimp only
    simp only [alookup_aupdate_self, hcd]
    rfl

/-- C10: with an empty configured room list, `joinRoom` applies no default
fallback: for any requested `roomId` it creates (or extends) the membership
set under that raw id, inserts the caller, and sets the caller's `roomId`
to it — so rooms absent from the configuration exist at runtime. -/
theorem c10_join_unconfigured_room (config : Config) (st : ServerState) (n : Nat)
    (roomId : String) (cd : ClientData)
    (hrooms : config.rooms = [])
    (hcd : alookup st.clients n = some cd) :
    (∃ members, rlookup (joinRoom config st n roomId).rooms roomId = some members ∧
      n ∈ members) ∧
    (∃ cd1, alookup (joinRoom config st n roomId).clients n = some cd1 ∧
      cd1.roomId = some roomId) := by
  unfold joinRoom
  rw [hcd]
  simp only [hrooms, List.find?_nil]
  set st1 := if cd.roomId.isSome = true then leaveRoom st n else st with hst1
  have hcd1 : ∃ cd1, alookup st1.clients n = some cd1 := by
    rw [hst1]
    by_cases h : cd.roomId.isSome = true
    · rw [if_pos h]
      rcases leaveRoom_clients_lookup st n cd hcd with h1 | h1
      · exact ⟨cd, h1⟩
      · exact ⟨_, h1⟩
    · rw [if_neg h]
      exact ⟨cd, hcd⟩
  obtain ⟨cd1, hcd1⟩ := hcd1
  constructor
  · refine ⟨(if ((rlookup st1.rooms roomId).getD []).contains n = true then
        (rlookup st1.rooms roomId).getD []
      else (rlookup st1.rooms roomId).getD [] ++ [n]), ?_, ?_⟩
    · exact rlookup_rmapSet_self _ _ _
    · by_cases h : ((rlookup st1.rooms roomId).getD []).contains n = true
      · rw [if_pos h]
        simpa using h
      · rw [if_neg h]
        simp
  · refine ⟨{ cd1 with roomId := some roomId }, ?_, rfl⟩
    rw [alookup_aupdate_self, hcd1]
    rfl

def st10 : ServerState := { clients := [(0, cdFix "A" none)], rooms := [] }

def cfg10 : Config :=
  { wsPath := "/ws"
    rooms := []
    ipFilters := []
    connectionLimits := ⟨10, 1000, 100⟩
    rateLimitRules := []
    auth := ⟨false, none, true, some "anon_", none, none⟩ }

/-- Witness for C10: joining a room id that appears in no configuration. -/
theorem c10_join_unconfigured_room_witness :
    (∃ members, rlookup (joinRoom cfg10 st10 0 "ghost-room").rooms "ghost-room" =
      some members ∧ 0 ∈ members) ∧
    (∃ cd1, alookup (joinRoom cfg10 st10 0 "ghost-room").clients 0 = some cd1 ∧
      cd1.roomId = some "ghost-room") :=
  c10_join_unconfigured_room cfg10 st10 0 "ghost-room" (cdFix "A" none) rfl rfl

/-! ## Claim C7 -/

def c7rule : RateLimitRule := ⟨true, 1, 120000, none⟩

/-- C7 counterexample: for a rule whose window (120 s) exceeds the tracker's
fixed 60 s pruning horizon, two frames 70 s apart are both accepted — the
first timestamp has been pruned when the second arrives — so a sliding
120 s interval holds 2 accepted frames although `maxMessages = 1`. -/
theorem c7_counterexample :
    acceptedTimes [c7rule] "custom" [1, 70001] = [1, 70001] ∧
    countAccIn (acceptedTimes [c7rule] "custom" [1, 70001]) 0 c7rule.windowMs = 2 ∧
    c7rule.maxMessages = 1 := by
  refine ⟨?_, ?_, rfl⟩ <;> decide

theorem checkRateLimit_single (rule : RateLimitRule) (ty : String) (tracker : List Nat)
    (now : Nat) (hen : rule.enabled = true) (hty : rule.messageTypes = none) :
    checkRateLimit [rule] tracker now ty =
      (if rule.maxMessages ≤
          windowCount (tracker.filter (fun ts => decide (now - ts < 60000))) now
            rule.windowMs
        then (false, tracker.filter (fun ts => decide (now - ts < 60000)))
        else (true, tracker.filter (fun ts => decide (now - ts < 60000)) ++ [now])) := by
  unfold checkRateLimit
  simp only [List.isEmpty_cons, Bool.false_eq_true, if_false]
  have hany : (List.any [rule] fun r =>
      ruleBlocks r (tracker.filter (fun ts => decide (now - ts < 60000))) now ty) =
      decide (rule.maxMessages ≤
        windowCount (tracker.filter (fun ts => decide (now - ts < 60000))) now
          rule.windowMs) := by
    simp [ruleBlocks, hen, hty]
  rw [hany]
  by_cases h : rule.maxMessages ≤
      windowCount (tracker.filter (fun ts => decide (now - ts < 60000))) now rule.windowMs
  · simp [h]
  · simp [h]

theorem rlRun_append (rules : List RateLimitRule) (ty : String) (ys : List Nat)
    (x : Nat) :
    rlRun rules ty (ys ++ [x]) = rlStep rules ty (rlRun rules ty ys) x := by
  unfold rlRun
  rw [List.foldl_append]
  rfl

theorem rlFold_acc_subset (rules : List RateLimitRule) (ty : String) :
    ∀ (arrivals : List Nat) (s : List Nat × List Nat) (a : Nat),
      a ∈ (arrivals.foldl (rlStep rules ty) s).2 → a ∈ s.2 ∨ a ∈ arrivals := by
  intro arrivals
  induction arrivals with
  | nil => intro s a h; exact Or.inl h
  | cons x xs ih =>
    intro s a h
    rw [List.foldl_cons] at h
    rcases ih (rlStep rules ty s x) a h with h1 | h1
    · unfold rlStep at h1
      dsimp only at h1
      by_cases hc : (checkRateLimit rules s.1 x ty).1 = true
      · rw [if_pos hc] at h1
        rcases List.mem_append.mp h1 with h2 | h2
        · exact Or.inl h2
        · simp only [List.mem_singleton] at h2
          subst h2
          exact Or.inr (by simp)
      · rw [if_neg hc] at h1
        exact Or.inl h1
    · exact Or.inr (List.mem_cons_of_mem _ h1)

theorem acceptedTimes_subset (rules : List RateLimitRule) (ty : String)
    (arrivals : List Nat) (a : Nat) (h : a ∈ acceptedTimes rules ty arrivals) :
    a ∈ arrivals := by
  rcases rlFold_acc_subset rules ty arrivals ([], []) a h with h1 | h1
  · simp at h1
  · exact h1

theorem rlRun_tracker_eq (rule : RateLimitRule) (ty : String)
    (hen : rule.enabled = true) (hty : rule.messageTypes = none) :
    ∀ (ys : List Nat) (x : Nat), (ys ++ [x]).Pairwise (· ≤ ·) →
      (rlRun [rule] ty (ys ++ [x])).1 =
        ((rlRun [rule] ty (ys ++ [x])).2).filter (fun a => decide (x - a < 60000)) := by
  intro ys
  induction ys using List.reverseRecOn with
  | nil =>
    intro x _
    rw [List.nil_append]
    have hrun : rlRun [rule] ty [x] = rlStep [rule] ty ([], []) x := rfl
    rw [hrun]
    unfold rlStep
    dsimp only
    rw [checkRateLimit_single rule ty [] x hen hty]
    by_cases h : rule.maxMessages ≤
        windowCount (List.filter (fun ts => decide (x - ts < 60000)) []) x rule.windowMs
    · rw [if_pos h]
      rfl
    · rw [if_neg h]
      simp
  | append_singleton zs y ihz =>
    intro x hpw
    have hpw1 : (zs ++ [y]).Pairwise (· ≤ ·) := (List.pairwise_append.mp hpw).1
    have hyx : y ≤ x := by
      have h3 := (List.pairwise_append.mp hpw).2.2
      exact h3 y (by simp) x (by simp)
    have ih := ihz y hpw1
    rw [rlRun_append [rule] ty (zs ++ [y]) x]
    unfold rlStep
    dsimp only
    rw [checkRateLimit_single rule ty _ x hen hty]
    have hfilter : ((rlRun [rule] ty (zs ++ [y])).1).filter
        (fun ts => decide (x - ts < 60000)) =
        ((rlRun [rule] ty (zs ++ [y])).2).filter (fun ts => decide (x - ts < 60000)) := by
      rw [ih, List.filter_filter]
      apply List.filter_congr
      intro a _
      by_cases hx : x - a < 60000
      · have hy : y - a < 60000 := lt_of_le_of_lt (Nat.sub_le_sub_right hyx a) hx
        simp [hx, hy]
      · simp [hx]
    by_cases hblk : rule.maxMessages ≤
        windowCount (((rlRun [rule] ty (zs ++ [y])).1).filter
          (fun ts => decide (x - ts < 60000))) x rule.windowMs
    · rw [if_pos hblk]
      dsimp only
      exact hfilter
    · rw [if_neg hblk]
      dsimp only
      simp [List.filter_append, hfilter]

theorem length_filter_le_of_imp {l : List Nat} {p q : Nat → Bool}
    (h : ∀ a ∈ l, p a = true → q a = true) :
    (l.filter p).length ≤ (l.filter q).length := by
  induction l with
  | nil => simp
  | cons a l ih =>
    have ih2 := ih (fun b hb => h b (List.mem_cons_of_mem a hb))
    by_cases hp : p a = true
    · have hq := h a (by simp) hp
      simp only [List.filter_cons, hp, if_true, hq, List.length_cons]
      omega
    · by_cases hq : q a = true
      · simp only [List.filter_cons, hp, Bool.false_eq_true, if_false, hq, if_true,
          List.length_cons]
        omega
      · simp only [List.filter_cons, hp, hq, Bool.false_eq_true, if_false]
        exact ih2

theorem sliding_bound (rule : RateLimitRule) (ty : String)
    (hen : rule.enabled = true) (hty : rule.messageTypes = none)
    (hW : rule.windowMs ≤ 60000) :
    ∀ arrivals : List Nat, arrivals.Pairwise (· ≤ ·) →
      ∀ t, countAccIn (acceptedTimes [rule] ty arrivals) t rule.windowMs ≤
        rule.maxMessages := by
  intro arrivals
  induction arrivals using List.reverseRecOn with
  | nil =>
    intro _ t
    simp [acceptedTimes, rlRun, countAccIn]
  | append_singleton ys x ih =>
    intro hpw t
    have hpw1 : ys.Pairwise (· ≤ ·) := (List.pairwise_append.mp hpw).1
    have hub : ∀ a ∈ ys, a ≤ x := fun a ha =>
      (List.pairwise_append.mp hpw).2.2 a ha x (by simp)
    have ihy := ih hpw1 t
    unfold acceptedTimes at ihy ⊢
    rw [rlRun_append]
    unfold rlStep
    dsimp only
    rw [checkRateLimit_single rule ty _ x hen hty]
    by_cases hblk : rule.maxMessages ≤
        windowCount (((rlRun [rule] ty ys).1).filter (fun ts => decide (x - ts < 60000)))
          x rule.windowMs
    · rw [if_pos hblk]
      exact ihy
    · rw [if_neg hblk]
      dsimp only
      rw [if_pos (rfl : (true : Bool) = true)]
      unfold countAccIn at ihy ⊢
      rw [List.filter_append, List.length_append]
      by_cases hx : ((decide (t < x)) && (decide (x ≤ t + rule.windowMs))) = true
      · have hxlen : (List.filter (fun a => decide (t < a) && decide (a ≤ t + rule.windowMs))
            [x]).length = 1 := by
          simp only [List.filter_cons, hx, if_true, List.filter_nil, List.length_cons,
            List.length_nil]
        rw [hxlen]
        simp only [Bool.and_eq_true, decide_eq_true_eq] at hx
        have hcount : ((rlRun [rule] ty ys).2.filter (fun a =>
            decide (t < a) && decide (a ≤ t + rule.windowMs))).length ≤
            windowCount (((rlRun [rule] ty ys).1).filter
              (fun ts => decide (x - ts < 60000))) x rule.windowMs := by
        -- bound the interval count by the pruned in-window count at acceptance time
          rcases List.eq_nil_or_concat ys with rfl | ⟨zs, y, hys⟩
          · simp [rlRun]
          · rw [List.concat_eq_append] at hys
            subst hys
            have htr := rlRun_tracker_eq rule ty hen hty zs y hpw1
            rw [htr]
            unfold windowCount
            rw [List.filter_filter, List.filter_filter]
            apply length_filter_le_of_imp
            intro a ha hcond
            have hay : a ∈ zs ++ [y] :=
              acceptedTimes_subset [rule] ty (zs ++ [y]) a ha
            have hax : a ≤ x := hub a hay
            have hyx : y ≤ x := hub y (by simp)
            simp only [Bool.and_eq_true, decide_eq_true_eq] at hcond ⊢
            refine ⟨⟨?_, ?_⟩, ?_⟩
            · omega
            · omega
            · omega
        omega
      · have hxlen : (List.filter (fun a => decide (t < a) && decide (a ≤ t + rule.windowMs))
            [x]).length = 0 := by
          simp only [List.filter_cons, hx, Bool.false_eq_true, if_false, List.filter_nil,
            List.length_nil]
        rw [hxlen]
        omega

/-- C7 amended: for a rule with `windowMs ≤ 60000` ms (the tracker's fixed
pruning horizon; larger windows are violated, see the counterexample) that is
enabled and unrestricted by message type, the frames the router accepts from
one connection within any sliding half-open interval of length `windowMs`
never exceed `maxMessages`; a frame arriving when exactly `maxMessages - 1`
pruned timestamps lie in the window is accepted and recorded, one arriving at
`maxMessages` is rejected, and a rejected frame makes `routeMessage` reply
`{type:'error', error:'Rate limit exceeded'}` to the sender and deliver
nothing. -/
theorem c7_rate_limit_window (rule : RateLimitRule) (ty : String)
    (hen : rule.enabled = true) (hty : rule.messageTypes = none)
    (hW : rule.windowMs ≤ 60000) :
    (∀ arrivals : List Nat, arrivals.Pairwise (· ≤ ·) →
      ∀ t, countAccIn (acceptedTimes [rule] ty arrivals) t rule.windowMs ≤
        rule.maxMessages) ∧
    (∀ (tracker : List Nat) (now : Nat),
      windowCount (tracker.filter (fun ts => decide (now - ts < 60000))) now
          rule.windowMs + 1 = rule.maxMessages →
        checkRateLimit [rule] tracker now ty =
          (true, tracker.filter (fun ts => decide (now - ts < 60000)) ++ [now])) ∧
    (∀ (tracker : List Nat) (now : Nat),
      rule.maxMessages ≤
          windowCount (tracker.filter (fun ts => decide (now - ts < 60000))) now
            rule.windowMs →
        checkRateLimit [rule] tracker now ty =
          (false, tracker.filter (fun ts => decide (now - ts < 60000)))) ∧
    (∀ (config : Config) (st : ServerState) (trackers : List (Nat × List Nat))
        (openSock : Nat → Bool) (n : Nat) (raw : String) (parsed : ParsedMessage)
        (now : Nat) (cd : ClientData),
      alookup st.clients n = some cd →
      config.rateLimitRules = [rule] →
      (checkRateLimit [rule] ((alookup trackers n).getD []) now
        (messageTypeOf parsed)).1 = false →
      (routeMessage config st trackers openSock n raw (some parsed) now).sends =
          [(n, OutFrame.errorFrame "Rate limit exceeded")] ∧
        (routeMessage config st trackers openSock n raw (some parsed) now).state = st) := by
  refine ⟨sliding_bound rule ty hen hty hW, ?_, ?_, ?_⟩
  · intro tracker now h
    rw [checkRateLimit_single rule ty tracker now hen hty]
    rw [if_neg (by omega)]
  · intro tracker now h
    rw [checkRateLimit_single rule ty tracker now hen hty]
    rw [if_pos h]
  · intro config st trackers openSock n raw parsed now cd hcd hcfg hfail
    unfold routeMessage
    rw [hcd]
    simp only [Option.getD_some, hcfg, hfail, Bool.not_false, if_true]
    exact ⟨trivial, trivial⟩

def c7ruleW : RateLimitRule := ⟨true, 2, 1000, none⟩

/-- Witness for C7 amended at a window inside the pruning horizon. -/
theorem c7_rate_limit_window_witness :
    countAccIn (acceptedTimes [c7ruleW] "custom" [1, 2, 3]) 0 c7ruleW.windowMs ≤
      c7ruleW.maxMessages :=
  (c7_rate_limit_window c7ruleW "custom" rfl rfl (by decide)).1 [1, 2, 3]
    (by decide) 0

end ArkSignaling
